import Mathlib

/-!
Shallow embedding of the database connection and failover manager of the
support ticketing system (source file src/lib/db.ts), together with the
admin database-management route handler (the POST handler that dispatches
the switch action) and the audit helper createAuditLog.

Modelling conventions:
* Live connections are identified by natural numbers.
* The behaviour of mongoose.connect / mongoose.createConnection on a given
  URI is an oracle NetEnv : String → Except JsError Nat (deterministic per
  URI within one run).
* Environment variables are Option String values; the JavaScript truthiness
  test on a string (false for undefined and for the empty string) is the
  function truthy below.
* The module-level cache object { conn, promise, currentDb } of db.ts is the
  state that every operation threads explicitly.  mongoose.connection's
  readyState is carried alongside it (set to 1 by a successful connect, 0
  by a failed connect or a disconnect).
* Two views of the code are developed.  SeqState with dbConnect,
  dbDisconnect, switchDatabase, testDatabaseConnection, getConnectionStatus
  and postSwitch is the sequential (single caller at a time) collapse, where
  a stored promise is always already resolved.  Sys with the Step relation
  is the event-loop view used for the concurrency claims: each dbConnect or
  switchDatabase invocation is a caller that runs synchronously up to its
  first await, and the resolution of an establishment task runs all
  continuations awaiting that promise consecutively, exactly as the
  single-threaded JavaScript event loop delivers the reactions of one
  promise back to back.
-/

namespace TicketDb

/-- JavaScript error values thrown or rejected in the connection layer.
generic m models new Error(m); raw v models a thrown value that is not an
Error instance.  The constructor both is modelled from the spec: it is the
BothTargetsUnavailableError carrying primaryCause and secondaryCause that
spec sections 4.3 and 7 describe; the source never constructs such a value,
and the constructor exists only so that claims mentioning it can be stated
and compared against what the source actually throws. -/
inductive JsError where
  | generic (message : String)
  | raw (value : Nat)
  | both (primaryCause : JsError) (secondaryCause : JsError)
  deriving DecidableEq, Repr

/-- The expression e instanceof Error ? e.message : (fallback), as used by
the route handler and testDatabaseConnection with fallback Unknown error. -/
def errorMessageOf : JsError → String
  | .generic m => m
  | .both _ _ => "BothTargetsUnavailableError"
  | .raw _ => "Unknown error"

/-- Checks whether an error value is the spec BothTargetsUnavailableError. -/
def exceptIsBothError : Except JsError Nat → Bool
  | .error (.both _ _) => true
  | _ => false

/-- The immutable part of process.env read by db.ts: the two endpoint URIs.
These are never written by the source, so they are a fixed parameter; the
mutable USE_SECONDARY_DB variable lives in the state instead. -/
structure Config where
  PRIMARY_DB_URI : Option String
  SECONDARY_DB_URI : Option String
  deriving DecidableEq, Repr

/-- Outcome oracle for mongoose.connect / mongoose.createConnection on a
given connection URI. -/
abbrev NetEnv := String → Except JsError Nat

/-- JavaScript truthiness of a possibly-undefined string: undefined and the
empty string are falsy, every other string is truthy. -/
def truthy : Option String → Bool
  | none => false
  | some s => decide (s ≠ "")

/-- The test process.env.USE_SECONDARY_DB === (the string true). -/
def useSecondaryOf (v : Option String) : Bool :=
  v == some "true"

/-- Result of one run of connectWithFailover: the settled value of its
promise, the write it performed on cached.currentDb (none when it did not
write), and the list of URIs passed to mongoose.connect, in order. -/
structure FailoverResult where
  result : Except JsError Nat
  currentDbUpdate : Option String
  attempted : List String
  deriving Repr

/-- connectWithFailover from src/lib/db.ts.  The useSecondary argument is
the value of process.env.USE_SECONDARY_DB === (the string true) read at the
start of the call.  On a failure of the selected database the source checks
if (!useSecondary) and falls back to the secondary URI; the two branches are
written here with the condition un-negated. -/
def connectWithFailover (useSecondary : Bool) (cfg : Config) (net : NetEnv) :
    FailoverResult :=
  if truthy cfg.PRIMARY_DB_URI && truthy cfg.SECONDARY_DB_URI then
    let primaryUri := cfg.PRIMARY_DB_URI.getD ""
    let secondaryUri := cfg.SECONDARY_DB_URI.getD ""
    let connectionUri := if useSecondary then secondaryUri else primaryUri
    let dbName := if useSecondary then "secondary" else "primary"
    match net connectionUri with
    | .ok c => ⟨.ok c, some dbName, [connectionUri]⟩
    | .error err =>
      if useSecondary then
        ⟨.error err, none, [connectionUri]⟩
      else
        match net secondaryUri with
        | .ok c => ⟨.ok c, some "secondary", [connectionUri, secondaryUri]⟩
        | .error _ =>
          ⟨.error (.generic "Both primary and secondary database connections failed"),
            none, [connectionUri, secondaryUri]⟩
  else
    ⟨.error (.generic "Database URIs are not configured in environment variables"),
      none, []⟩

/-- The module-level mutable state of db.ts in the sequential view: the
cache object cached = { conn, promise, currentDb }, the mutable environment
variable USE_SECONDARY_DB, and mongoose.connection.readyState.  In this
view a stored promise is always already settled, so it is represented by
its settled value. -/
instance {α β : Type} [DecidableEq α] [DecidableEq β] :
    DecidableEq (Except α β) := fun x y =>
  match x, y with
  | .ok a, .ok b => decidable_of_iff (a = b) (by simp)
  | .error a, .error b => decidable_of_iff (a = b) (by simp)
  | .ok _, .error _ => isFalse (fun h => Except.noConfusion h)
  | .error _, .ok _ => isFalse (fun h => Except.noConfusion h)

structure SeqState where
  conn : Option Nat
  promise : Option (Except JsError Nat)
  currentDb : String
  USE_SECONDARY_DB : Option String
  readyState : Nat
  deriving DecidableEq, Repr

/-- dbConnect from src/lib/db.ts, sequential view.  Returns the settled
value of the call, the state after it, and the list of URIs attempted. -/
def dbConnect (cfg : Config) (net : NetEnv) (s : SeqState) :
    Except JsError Nat × SeqState × List String :=
  match s.conn with
  | some c => (.ok c, s, [])
  | none =>
    match s.promise with
    | some r =>
      match r with
      | .ok c => (.ok c, { s with conn := some c }, [])
      | .error e => (.error e, { s with promise := none }, [])
    | none =>
      let fr := connectWithFailover (useSecondaryOf s.USE_SECONDARY_DB) cfg net
      match fr.result with
      | .ok c =>
        (.ok c,
          { s with
            conn := some c
            promise := some (.ok c)
            currentDb := fr.currentDbUpdate.getD s.currentDb
            readyState := 1 },
          fr.attempted)
      | .error e =>
        (.error e,
          { s with
            promise := none
            currentDb := fr.currentDbUpdate.getD s.currentDb
            readyState := 0 },
          fr.attempted)

/-- dbDisconnect from src/lib/db.ts: a no-op when cached.conn is null,
otherwise mongoose.disconnect followed by clearing conn, promise and
currentDb. -/
def dbDisconnect (s : SeqState) : SeqState :=
  match s.conn with
  | some _ =>
    { s with conn := none, promise := none, currentDb := "none", readyState := 0 }
  | none => s

/-- switchDatabase from src/lib/db.ts: disconnect, write USE_SECONDARY_DB
(Boolean.toString gives the strings true and false), reconnect. -/
def switchDatabase (useSecondary : Bool) (cfg : Config) (net : NetEnv)
    (s : SeqState) : Except JsError Nat × SeqState × List String :=
  let s₁ := dbDisconnect s
  let s₂ := { s₁ with
    USE_SECONDARY_DB := some (if useSecondary then "true" else "false") }
  dbConnect cfg net s₂

/-- The object returned by getConnectionStatus (the constant
connectionStates dictionary is omitted). -/
structure ConnStatus where
  isConnected : Bool
  currentDatabase : String
  connectionState : Nat
  deriving DecidableEq, Repr

/-- getConnectionStatus from src/lib/db.ts.  The source computes
cached?.currentDb || (useSecondary ? secondary : primary): the fallback is
taken when currentDb is falsy, that is the empty string. -/
def getConnectionStatus (s : SeqState) : ConnStatus :=
  { isConnected := s.readyState == 1
    currentDatabase :=
      if s.currentDb = "" then
        if useSecondaryOf s.USE_SECONDARY_DB then "secondary" else "primary"
      else s.currentDb
    connectionState := s.readyState }

/-- The object literal returned by testDatabaseConnection: { success,
database, error }.  The spec calls this ProbeResult with field errorMessage. -/
structure ProbeResult where
  success : Bool
  database : String
  error : Option String
  deriving DecidableEq, Repr

/-- testDatabaseConnection from src/lib/db.ts.  The configuration check
sits before the try block, so a missing URI is thrown to the caller, while
every connection outcome is converted into a ProbeResult inside the try.
The probe uses mongoose.createConnection, a connection object separate from
the cached one, and never reads or writes the cache state, which is
returned unchanged in every branch. -/
def testDatabaseConnection (useSecondary : Bool) (cfg : Config) (net : NetEnv)
    (s : SeqState) : Except JsError ProbeResult × SeqState :=
  if truthy cfg.PRIMARY_DB_URI && truthy cfg.SECONDARY_DB_URI then
    let uri := if useSecondary then cfg.SECONDARY_DB_URI.getD ""
               else cfg.PRIMARY_DB_URI.getD ""
    let dbName := if useSecondary then "secondary" else "primary"
    match net uri with
    | .ok _ => (.ok { success := true, database := dbName, error := none }, s)
    | .error e =>
      (.ok { success := false
             database := dbName
             error := some (errorMessageOf e) }, s)
  else
    (.error (.generic "Database URIs are not configured"), s)

/-- One document written by createAuditLog (src/lib/audit.ts): the fields
relevant to the claims.  The when, ipAddress and userAgent fields carry no
role information and are omitted. -/
structure AuditEntry where
  who : String
  what : String
  details : String
  deriving DecidableEq, Repr

/-- JSON responses of the admin database POST handler: ok m st is a 200
body { message, status }, err e code is an error body with its HTTP code. -/
inductive ApiResponse where
  | ok (message : String) (status : ConnStatus)
  | err (error : String) (code : Nat)
  deriving DecidableEq, Repr

/-- The switch action branch of the POST handler of the admin database
route (source symbol POST, the branch starting at the action === switch
test).  Returns the response, the state after the call, the audit entries
written (createAuditLog swallows its own persistence failures, so the list
records the calls made), and the URIs attempted while switching. -/
def postSwitch (who : String) (useSecondary : Bool) (cfg : Config)
    (net : NetEnv) (s : SeqState) :
    ApiResponse × SeqState × List AuditEntry × List String :=
  let currentStatus := getConnectionStatus s
  let targetDb := if useSecondary then "secondary" else "primary"
  if currentStatus.currentDatabase = targetDb then
    (.ok ("Already connected to " ++ targetDb ++ " database") currentStatus,
      s, [], [])
  else
    match switchDatabase useSecondary cfg net s with
    | (.ok _, s', log) =>
      let newStatus := getConnectionStatus s'
      (.ok ("Successfully switched to " ++ targetDb ++ " database") newStatus,
        s',
        [⟨who, "view_audit_logs",
          "Switched database from " ++ currentStatus.currentDatabase ++
            " to " ++ newStatus.currentDatabase⟩],
        log)
    | (.error e, s', log) =>
      (.err ("Failed to switch to " ++ targetDb ++ " database") 500,
        s',
        [⟨who, "view_audit_logs",
          "Failed to switch to " ++ targetDb ++ " database: " ++
            errorMessageOf e⟩],
        log)

/-- Character-list comparison: pat is an initial segment of s. -/
def startsWithChars : List Char → List Char → Bool
  | [], _ => true
  | _ :: _, [] => false
  | p :: ps, c :: cs => p == c && startsWithChars ps cs

/-- Character-list occurrence: pat occurs contiguously somewhere in s. -/
def occursIn (pat : List Char) : List Char → Bool
  | [] => startsWithChars pat []
  | c :: cs => startsWithChars pat (c :: cs) || occursIn pat cs

/-- Substring test: pat occurs somewhere in s. -/
def containsSub (s pat : String) : Bool :=
  occursIn pat.data s.data

/-!
Event-loop view.  A dbConnect or switchDatabase invocation runs
synchronously up to its first await; the promise created by an invocation
of connectWithFailover is an establishment task whose resolution delivers
the settled value to every caller awaiting cached.promise.  In the
JavaScript event loop all reactions of one promise are enqueued together
when it settles and run back to back, so the resolution of a task, the
assignments cached.conn = result performed by the awaiting callers (or
cached.promise = null in their catch blocks on rejection), and the
completion of those callers are one atomic step here.  connectWithFailover
reads USE_SECONDARY_DB before its first await, so each task snapshots that
value at creation; the two URI variables are never written and stay in the
Config parameter.
-/

/-- Status of an establishment task (the promise made by one invocation of
connectWithFailover). -/
inductive TaskStatus where
  | running
  | done (outcome : Except JsError Nat)
  deriving DecidableEq, Repr

/-- An establishment task: the USE_SECONDARY_DB snapshot taken when
connectWithFailover started, and its status. -/
structure EstTask where
  useSec : Bool
  status : TaskStatus
  deriving DecidableEq, Repr

/-- Where one logical caller stands.  idle: has not called yet.
waitingConn t: suspended on await cached.promise, the promise of task t
(reached either through dbConnect directly or through the dbConnect call
inside switchDatabase).  switchMid u: a switchDatabase u caller suspended
on await dbDisconnect().  done r: the call returned r. -/
inductive CallerState where
  | idle
  | waitingConn (t : Nat)
  | switchMid (u : Bool)
  | done (r : Except JsError Nat)
  deriving DecidableEq, Repr

/-- Global state of the event-loop view: the cache object of db.ts (conn,
promise as the id of the task it holds, currentDb), the mutable environment
variable, the tasks created so far (task t is tasks[t]) and the callers. -/
structure Sys where
  conn : Option Nat
  promise : Option Nat
  currentDb : String
  USE_SECONDARY_DB : Option String
  tasks : List EstTask
  callers : List CallerState
  deriving DecidableEq, Repr

/-- Replace the state of caller i. -/
def setCaller (s : Sys) (i : Nat) (c : CallerState) : Sys :=
  { s with callers := s.callers.set i c }

/-- Task t exists and has not settled yet. -/
def isRunning (s : Sys) (t : Nat) : Bool :=
  match s.tasks[t]? with
  | some task => task.status == .running
  | none => false

/-- The synchronous prefix of a dbConnect invocation by caller i (lines
19-31 of db.ts up to the first await): return the cached connection if one
exists; otherwise join the in-flight promise if there is one; otherwise
invoke connectWithFailover, which snapshots USE_SECONDARY_DB and becomes a
new pending task stored in cached.promise, and await it. -/
def doConnCall (i : Nat) (s : Sys) : Sys :=
  match s.conn with
  | some c => setCaller s i (.done (.ok c))
  | none =>
    match s.promise with
    | some t => setCaller s i (.waitingConn t)
    | none =>
      let t := s.tasks.length
      { setCaller s i (.waitingConn t) with
        tasks := s.tasks ++ [⟨useSecondaryOf s.USE_SECONDARY_DB, .running⟩]
        promise := some t }

/-- dbDisconnect in the event-loop view (same effect as the sequential
one). -/
def doDisconnect (s : Sys) : Sys :=
  match s.conn with
  | some _ =>
    { s with conn := none, promise := none, currentDb := "none" }
  | none => s

/-- First half of a switchDatabase u invocation by caller i: run
dbDisconnect and suspend on its await. -/
def doSwitchCall (i : Nat) (u : Bool) (s : Sys) : Sys :=
  setCaller (doDisconnect s) i (.switchMid u)

/-- Second half of a switchDatabase u invocation: write USE_SECONDARY_DB
and run the synchronous prefix of the inner dbConnect call. -/
def doSwitchResume (i : Nat) (u : Bool) (s : Sys) : Sys :=
  doConnCall i { s with USE_SECONDARY_DB := some (if u then "true" else "false") }

/-- Resolution of establishment task t: the task settles with the outcome
of connectWithFailover under its USE_SECONDARY_DB snapshot, performing the
cached.currentDb write of that function, and every caller awaiting the
promise of t runs its continuation: on fulfilment each runs cached.conn =
result and returns it, on rejection each runs cached.promise = null and
rethrows.  All of this is one step, as in the event loop. -/
def doResolve (cfg : Config) (net : NetEnv) (t : Nat) (s : Sys) : Sys :=
  match s.tasks[t]? with
  | none => s
  | some task =>
    match task.status with
    | .done _ => s
    | .running =>
      let fr := connectWithFailover task.useSec cfg net
      let hasWaiter := s.callers.any (· == .waitingConn t)
      let callers' := s.callers.map
        (fun c => if c == .waitingConn t then .done fr.result else c)
      let base := { s with
        tasks := s.tasks.set t { task with status := .done fr.result }
        currentDb := fr.currentDbUpdate.getD s.currentDb
        callers := callers' }
      match fr.result with
      | .ok c => if hasWaiter then { base with conn := some c } else base
      | .error _ => if hasWaiter then { base with promise := none } else base

/-- Initial state: the cache starts { conn: null, promise: null, currentDb:
none }, USE_SECONDARY_DB has its process-start value e0, and n callers have
not called yet. -/
def initSys (e0 : Option String) (n : Nat) : Sys :=
  { conn := none
    promise := none
    currentDb := "none"
    USE_SECONDARY_DB := e0
    tasks := []
    callers := List.replicate n .idle }

/-- One event-loop step: a caller starts dbConnect, a task settles, a
disconnect runs, or a switchDatabase caller takes one of its two halves. -/
inductive Step (cfg : Config) (net : NetEnv) : Sys → Sys → Prop where
  | connCall (s : Sys) (i : Nat) (h : s.callers[i]? = some .idle) :
      Step cfg net s (doConnCall i s)
  | resolve (s : Sys) (t : Nat) (h : isRunning s t = true) :
      Step cfg net s (doResolve cfg net t s)
  | disc (s : Sys) : Step cfg net s (doDisconnect s)
  | switchCall (s : Sys) (i : Nat) (u : Bool)
      (h : s.callers[i]? = some .idle) :
      Step cfg net s (doSwitchCall i u s)
  | switchResume (s : Sys) (i : Nat) (u : Bool)
      (h : s.callers[i]? = some (.switchMid u)) :
      Step cfg net s (doSwitchResume i u s)

/-- States reachable from the initial state by event-loop steps. -/
inductive Reachable (cfg : Config) (net : NetEnv) (e0 : Option String)
    (n : Nat) : Sys → Prop where
  | init : Reachable cfg net e0 n (initSys e0 n)
  | step {s s' : Sys} (hr : Reachable cfg net e0 n s)
      (hs : Step cfg net s s') : Reachable cfg net e0 n s'

/-- The reachability invariant of the cache.  run_promise: a task that has
not settled is the one held by cached.promise, no live connection is cached
while it runs, and someone is awaiting it.  wait_run: whatever a caller is
awaiting is a task that has not settled.  promise_live: cached.promise
always points at an existing task, and at a non-settled one whenever no
connection is cached. -/
structure Inv (s : Sys) : Prop where
  run_promise : ∀ (t : Nat) (task : EstTask), s.tasks[t]? = some task →
    task.status = TaskStatus.running →
    s.promise = some t ∧ s.conn = none ∧
      ∃ i : Nat, s.callers[i]? = some (CallerState.waitingConn t)
  wait_run : ∀ (i t : Nat), s.callers[i]? = some (CallerState.waitingConn t) →
    isRunning s t = true
  promise_live : ∀ t, s.promise = some t →
    ∃ task, s.tasks[t]? = some task ∧
      (s.conn = none → task.status = .running)

/-! Characterisation lemmas for connectWithFailover and dbConnect. -/

theorem cwf_primary_ok (cfg : Config) (net : NetEnv) (pu su : String) (c : Nat)
    (hp : cfg.PRIMARY_DB_URI = some pu) (hs : cfg.SECONDARY_DB_URI = some su)
    (hpne : pu ≠ "") (hsne : su ≠ "") (hok : net pu = .ok c) :
    connectWithFailover false cfg net = ⟨.ok c, some "primary", [pu]⟩ := by
  simp [connectWithFailover, truthy, hp, hs, hpne, hsne, hok]

theorem cwf_fallback_ok (cfg : Config) (net : NetEnv) (pu su : String)
    (e : JsError) (c : Nat)
    (hp : cfg.PRIMARY_DB_URI = some pu) (hs : cfg.SECONDARY_DB_URI = some su)
    (hpne : pu ≠ "") (hsne : su ≠ "")
    (hfail : net pu = .error e) (hok : net su = .ok c) :
    connectWithFailover false cfg net = ⟨.ok c, some "secondary", [pu, su]⟩ := by
  simp [connectWithFailover, truthy, hp, hs, hpne, hsne, hfail, hok]

theorem cwf_both_fail (cfg : Config) (net : NetEnv) (pu su : String)
    (e₁ e₂ : JsError)
    (hp : cfg.PRIMARY_DB_URI = some pu) (hs : cfg.SECONDARY_DB_URI = some su)
    (hpne : pu ≠ "") (hsne : su ≠ "")
    (hfail₁ : net pu = .error e₁) (hfail₂ : net su = .error e₂) :
    connectWithFailover false cfg net =
      ⟨.error (.generic "Both primary and secondary database connections failed"),
        none, [pu, su]⟩ := by
  simp [connectWithFailover, truthy, hp, hs, hpne, hsne, hfail₁, hfail₂]

theorem cwf_secondary_ok (cfg : Config) (net : NetEnv) (pu su : String) (c : Nat)
    (hp : cfg.PRIMARY_DB_URI = some pu) (hs : cfg.SECONDARY_DB_URI = some su)
    (hpne : pu ≠ "") (hsne : su ≠ "") (hok : net su = .ok c) :
    connectWithFailover true cfg net = ⟨.ok c, some "secondary", [su]⟩ := by
  simp [connectWithFailover, truthy, hp, hs, hpne, hsne, hok]

theorem cwf_secondary_fail (cfg : Config) (net : NetEnv) (pu su : String)
    (e : JsError)
    (hp : cfg.PRIMARY_DB_URI = some pu) (hs : cfg.SECONDARY_DB_URI = some su)
    (hpne : pu ≠ "") (hsne : su ≠ "") (hfail : net su = .error e) :
    connectWithFailover true cfg net = ⟨.error e, none, [su]⟩ := by
  simp [connectWithFailover, truthy, hp, hs, hpne, hsne, hfail]

theorem dbConnect_fresh_ok (cfg : Config) (net : NetEnv) (s : SeqState)
    (c : Nat) (upd : Option String) (log : List String)
    (hconn : s.conn = none) (hprom : s.promise = none)
    (hcwf : connectWithFailover (useSecondaryOf s.USE_SECONDARY_DB) cfg net =
      ⟨.ok c, upd, log⟩) :
    dbConnect cfg net s =
      (.ok c,
        { s with
          conn := some c
          promise := some (.ok c)
          currentDb := upd.getD s.currentDb
          readyState := 1 },
        log) := by
  simp [dbConnect, hconn, hprom, hcwf]

theorem dbConnect_fresh_err (cfg : Config) (net : NetEnv) (s : SeqState)
    (e : JsError) (upd : Option String) (log : List String)
    (hconn : s.conn = none) (hprom : s.promise = none)
    (hcwf : connectWithFailover (useSecondaryOf s.USE_SECONDARY_DB) cfg net =
      ⟨.error e, upd, log⟩) :
    dbConnect cfg net s =
      (.error e,
        { s with
          promise := none
          currentDb := upd.getD s.currentDb
          readyState := 0 },
        log) := by
  simp [dbConnect, hconn, hprom, hcwf]

/-! Claims about the sequential behaviour. -/

/-- C2: for every connection request started with the preferred role
primary, if establishing to the primary target fails and establishing to
the secondary target succeeds, the request ends connected with the
secondary role active, and the secondary target was attempted exactly
once. -/
theorem dbConnect_failover_to_secondary
    (cfg : Config) (net : NetEnv) (s : SeqState) (pu su : String)
    (e : JsError) (c : Nat)
    (hconn : s.conn = none) (hprom : s.promise = none)
    (hpref : useSecondaryOf s.USE_SECONDARY_DB = false)
    (hp : cfg.PRIMARY_DB_URI = some pu) (hs : cfg.SECONDARY_DB_URI = some su)
    (hpne : pu ≠ "") (hsne : su ≠ "")
    (hfail : net pu = .error e) (hok : net su = .ok c) :
    dbConnect cfg net s =
      (.ok c,
        { s with
          conn := some c
          promise := some (.ok c)
          currentDb := "secondary"
          readyState := 1 },
        [pu, su]) ∧
    ((dbConnect cfg net s).2.2).count su = 1 := by
  have hcwf : connectWithFailover (useSecondaryOf s.USE_SECONDARY_DB) cfg net
      = ⟨.ok c, some "secondary", [pu, su]⟩ := by
    rw [hpref]
    exact cwf_fallback_ok cfg net pu su e c hp hs hpne hsne hfail hok
  have h1 := dbConnect_fresh_ok cfg net s c (some "secondary") [pu, su]
    hconn hprom hcwf
  have hne : pu ≠ su := by
    intro h
    rw [h, hok] at hfail
    cases hfail
  refine ⟨by rw [h1]; rfl, ?_⟩
  rw [h1]
  simp [List.count_cons, hne]

/-- C3 counterexample: with the secondary role preferred (its one attempt
being the whole budget) and that attempt failing, connectWithFailover
rethrows the raw secondary error itself rather than raising a
BothTargetsUnavailableError carrying both causes. -/
theorem cwf_no_both_error_cex :
    (connectWithFailover true ⟨some "p", some "s"⟩
      (fun _ => .error (.generic "down"))).result =
        .error (.generic "down") ∧
    exceptIsBothError ((connectWithFailover true ⟨some "p", some "s"⟩
      (fun _ => .error (.generic "down"))).result) = false := by
  constructor <;> decide

/-- C3 amended: a connection request that exhausts its attempt budget
raises an error, but never the spec BothTargetsUnavailableError: with the
primary role preferred and both attempts failing it raises the fixed
generic error Both primary and secondary database connections failed,
which carries neither underlying cause, and with the secondary role
preferred it rethrows the secondary attempt error unchanged. -/
theorem cwf_exhaustion_errors
    (cfg : Config) (net : NetEnv) (pu su : String)
    (hp : cfg.PRIMARY_DB_URI = some pu) (hs : cfg.SECONDARY_DB_URI = some su)
    (hpne : pu ≠ "") (hsne : su ≠ "") :
    (∀ e₁ e₂ : JsError, net pu = .error e₁ → net su = .error e₂ →
      connectWithFailover false cfg net =
        ⟨.error
          (.generic "Both primary and secondary database connections failed"),
          none, [pu, su]⟩ ∧
      exceptIsBothError (connectWithFailover false cfg net).result = false) ∧
    (∀ e : JsError, net su = .error e →
      connectWithFailover true cfg net = ⟨.error e, none, [su]⟩) := by
  constructor
  · intro e₁ e₂ h₁ h₂
    have h := cwf_both_fail cfg net pu su e₁ e₂ hp hs hpne hsne h₁ h₂
    exact ⟨h, by rw [h]; rfl⟩
  · intro e h
    exact cwf_secondary_fail cfg net pu su e hp hs hpne hsne h

/-- Witness for C3 amended at a concrete configuration and network. -/
theorem cwf_exhaustion_errors_witness :
    connectWithFailover false ⟨some "p", some "s"⟩
      (fun _ => .error (.generic "down")) =
      ⟨.error
        (.generic "Both primary and secondary database connections failed"),
        none, ["p", "s"]⟩ ∧
    connectWithFailover true ⟨some "p", some "s"⟩
      (fun _ => .error (.generic "down")) =
      ⟨.error (.generic "down"), none, ["s"]⟩ :=
  ⟨((cwf_exhaustion_errors ⟨some "p", some "s"⟩
      (fun _ => .error (.generic "down")) "p" "s" rfl rfl (by decide)
      (by decide)).1 (.generic "down") (.generic "down") rfl rfl).1,
    (cwf_exhaustion_errors ⟨some "p", some "s"⟩
      (fun _ => .error (.generic "down")) "p" "s" rfl rfl (by decide)
      (by decide)).2 (.generic "down") rfl⟩

/-- Witness for C2 at a concrete configuration and network. -/
theorem dbConnect_failover_to_secondary_witness :
    dbConnect ⟨some "p", some "s"⟩
      (fun u => if u = "s" then .ok 2 else .error (.generic "down"))
      ⟨none, none, "none", none, 0⟩ =
      (.ok 2, ⟨some 2, some (.ok 2), "secondary", none, 1⟩, ["p", "s"]) ∧
    ((dbConnect ⟨some "p", some "s"⟩
      (fun u => if u = "s" then .ok 2 else .error (.generic "down"))
      ⟨none, none, "none", none, 0⟩).2.2).count "s" = 1 :=
  dbConnect_failover_to_secondary ⟨some "p", some "s"⟩
    (fun u => if u = "s" then .ok 2 else .error (.generic "down"))
    ⟨none, none, "none", none, 0⟩ "p" "s" (.generic "down") 2
    rfl rfl rfl rfl rfl (by decide) (by decide) (by decide) (by decide)

/-- C8: testDatabaseConnection returns the cache state unchanged in every
branch: probing never mutates the cached live connection, the pending
promise, the recorded active role, the preferred-role variable or the
ready state, whether the probe succeeds, fails, or throws on missing
configuration. -/
theorem testDatabaseConnection_state_frame (u : Bool) (cfg : Config)
    (net : NetEnv) (s : SeqState) :
    (testDatabaseConnection u cfg net s).2 = s := by
  unfold testDatabaseConnection
  split
  · split
    · cases h : net (cfg.SECONDARY_DB_URI.getD "") <;> simp [h]
    · cases h : net (cfg.PRIMARY_DB_URI.getD "") <;> simp [h]
  · rfl

/-- C9 counterexample: with PRIMARY_DB_URI absent the probe does not
return a ProbeResult with success set to false; the configuration error is
thrown across the boundary to the caller. -/
theorem testDatabaseConnection_throws_cex :
    (testDatabaseConnection false ⟨none, some "s"⟩ (fun _ => .ok 1)
      ⟨none, none, "none", none, 0⟩).1 =
      .error (.generic "Database URIs are not configured") := by
  decide

/-- C9 amended: provided both endpoint URIs are configured (present and
non-empty), testDatabaseConnection never throws: every connection outcome
is returned as a ProbeResult, with a failure captured as success false and
the error message stored in the error field. -/
theorem testDatabaseConnection_no_throw
    (u : Bool) (cfg : Config) (net : NetEnv) (s : SeqState) (pu su : String)
    (hp : cfg.PRIMARY_DB_URI = some pu) (hs : cfg.SECONDARY_DB_URI = some su)
    (hpne : pu ≠ "") (hsne : su ≠ "") :
    (∀ c : Nat, net (if u then su else pu) = .ok c →
      testDatabaseConnection u cfg net s =
        (.ok ⟨true, if u then "secondary" else "primary", none⟩, s)) ∧
    (∀ e : JsError, net (if u then su else pu) = .error e →
      testDatabaseConnection u cfg net s =
        (.ok ⟨false, if u then "secondary" else "primary",
          some (errorMessageOf e)⟩, s)) := by
  constructor
  · intro c hok
    simp [testDatabaseConnection, truthy, hp, hs, hpne, hsne, hok]
  · intro e hfail
    simp [testDatabaseConnection, truthy, hp, hs, hpne, hsne, hfail]

/-- Witness for C9 amended at a concrete configuration and network. -/
theorem testDatabaseConnection_no_throw_witness :
    testDatabaseConnection true ⟨some "p", some "s"⟩
      (fun _ => .error (.generic "down")) ⟨none, none, "none", none, 0⟩ =
      (.ok ⟨false, "secondary", some "down"⟩,
        ⟨none, none, "none", none, 0⟩) :=
  (testDatabaseConnection_no_throw true ⟨some "p", some "s"⟩
    (fun _ => .error (.generic "down")) ⟨none, none, "none", none, 0⟩
    "p" "s" rfl rfl (by decide) (by decide)).2 (.generic "down") rfl

/-- C5 counterexample: with the cache connected to the secondary role, a
switch request to the primary role whose primary attempt fails and whose
secondary attempt succeeds returns success and leaves the system connected
to the secondary database again: the old role is reinstated by the silent
failover inside the reconnect, against the claim that a failed
re-establishment never ends up connected to the old role by silent
fallback. -/
theorem switchDatabase_silent_fallback_cex :
    switchDatabase false ⟨some "p", some "s"⟩
      (fun v => if v = "p" then .error (.generic "down") else .ok 8)
      ⟨some 7, some (.ok 7), "secondary", some "true", 1⟩ =
      (.ok 8, ⟨some 8, some (.ok 8), "secondary", some "false", 1⟩,
        ["p", "s"]) := by
  decide

/-- C5 amended: a switch request disconnects the cache, updates the
preferred role, and re-establishes with the new preference; whenever the
re-establishment raises an error the system is left disconnected (no
connection, no pending promise, active role none); with the secondary role
requested a secondary failure is raised as such; but with the primary role
requested, a primary failure together with a reachable secondary makes the
switch report success while the system is connected to the secondary, so a
switch away from secondary can silently end up back on the old role. -/
theorem switchDatabase_outcomes
    (u : Bool) (cfg : Config) (net : NetEnv) (s : SeqState) (c₀ : Nat)
    (pu su : String)
    (hconn : s.conn = some c₀)
    (hp : cfg.PRIMARY_DB_URI = some pu) (hs : cfg.SECONDARY_DB_URI = some su)
    (hpne : pu ≠ "") (hsne : su ≠ "") :
    ((switchDatabase u cfg net s).2.1.USE_SECONDARY_DB =
      some (if u then "true" else "false")) ∧
    (∀ e : JsError, (switchDatabase u cfg net s).1 = .error e →
      (switchDatabase u cfg net s).2.1.conn = none ∧
      (switchDatabase u cfg net s).2.1.promise = none ∧
      (switchDatabase u cfg net s).2.1.currentDb = "none") ∧
    (∀ e : JsError, u = true → net su = .error e →
      (switchDatabase u cfg net s).1 = .error e) ∧
    (∀ (e : JsError) (c : Nat), u = false → net pu = .error e →
      net su = .ok c →
      (switchDatabase u cfg net s).1 = .ok c ∧
      (switchDatabase u cfg net s).2.1.conn = some c ∧
      (switchDatabase u cfg net s).2.1.currentDb = "secondary") := by
  have hdis : dbDisconnect s =
      { s with conn := none, promise := none, currentDb := "none", readyState := 0 } := by
    simp [dbDisconnect, hconn]
  have hu1 : useSecondaryOf (some "true") = true := by decide
  have hu0 : useSecondaryOf (some "false") = false := by decide
  cases u with
  | true =>
    have hsw : switchDatabase true cfg net s =
        dbConnect cfg net ⟨none, none, "none", some "true", 0⟩ := by
      simp [switchDatabase, hdis]
    cases hsu : net su with
    | ok c =>
      have hfr := cwf_secondary_ok cfg net pu su c hp hs hpne hsne hsu
      have hval : switchDatabase true cfg net s =
          (.ok c, ⟨some c, some (.ok c), "secondary", some "true", 1⟩, [su]) := by
        rw [hsw, dbConnect_fresh_ok cfg net ⟨none, none, "none", some "true", 0⟩
          c (some "secondary") [su] rfl rfl (by rw [hu1]; exact hfr)]
        rfl
      rw [hval]
      refine ⟨rfl, ?_, ?_, ?_⟩
      · intro e h
        simp at h
      · intro e _ h
        simp at h
      · intro e c' h
        simp at h
    | error e' =>
      have hfr := cwf_secondary_fail cfg net pu su e' hp hs hpne hsne hsu
      have hval : switchDatabase true cfg net s =
          (.error e', ⟨none, none, "none", some "true", 0⟩, [su]) := by
        rw [hsw, dbConnect_fresh_err cfg net ⟨none, none, "none", some "true", 0⟩
          e' none [su] rfl rfl (by rw [hu1]; exact hfr)]
        rfl
      rw [hval]
      refine ⟨rfl, ?_, ?_, ?_⟩
      · intro e _
        exact ⟨rfl, rfl, rfl⟩
      · intro e _ h
        injection h with he
        rw [he]
      · intro e c' h
        simp at h
  | false =>
    have hsw : switchDatabase false cfg net s =
        dbConnect cfg net ⟨none, none, "none", some "false", 0⟩ := by
      simp [switchDatabase, hdis]
    cases hpu : net pu with
    | ok c =>
      have hfr := cwf_primary_ok cfg net pu su c hp hs hpne hsne hpu
      have hval : switchDatabase false cfg net s =
          (.ok c, ⟨some c, some (.ok c), "primary", some "false", 1⟩, [pu]) := by
        rw [hsw, dbConnect_fresh_ok cfg net ⟨none, none, "none", some "false", 0⟩
          c (some "primary") [pu] rfl rfl (by rw [hu0]; exact hfr)]
        rfl
      rw [hval]
      refine ⟨rfl, ?_, ?_, ?_⟩
      · intro e h
        simp at h
      · intro e h
        simp at h
      · intro e c' _ hpe _
        simp at hpe
    | error e₁ =>
      cases hsu : net su with
      | ok c =>
        have hfr := cwf_fallback_ok cfg net pu su e₁ c hp hs hpne hsne hpu hsu
        have hval : switchDatabase false cfg net s =
            (.ok c, ⟨some c, some (.ok c), "secondary", some "false", 1⟩,
              [pu, su]) := by
          rw [hsw, dbConnect_fresh_ok cfg net ⟨none, none, "none", some "false", 0⟩
            c (some "secondary") [pu, su] rfl rfl (by rw [hu0]; exact hfr)]
          rfl
        rw [hval]
        refine ⟨rfl, ?_, ?_, ?_⟩
        · intro e h
          simp at h
        · intro e h
          simp at h
        · intro e c' _ _ hse
          injection hse with hc
          rw [hc]
          exact ⟨rfl, rfl, rfl⟩
      | error e₂ =>
        have hfr := cwf_both_fail cfg net pu su e₁ e₂ hp hs hpne hsne hpu hsu
        have hval : switchDatabase false cfg net s =
            (.error
              (.generic "Both primary and secondary database connections failed"),
              ⟨none, none, "none", some "false", 0⟩, [pu, su]) := by
          rw [hsw, dbConnect_fresh_err cfg net ⟨none, none, "none", some "false", 0⟩
            (.generic "Both primary and secondary database connections failed")
            none [pu, su] rfl rfl (by rw [hu0]; exact hfr)]
          rfl
        rw [hval]
        refine ⟨rfl, ?_, ?_, ?_⟩
        · intro e _
          exact ⟨rfl, rfl, rfl⟩
        · intro e h
          simp at h
        · intro e c' _ _ hse
          simp at hse

/-- Witness for C5 amended: the silent-fallback conjunct at a concrete
input, a switch to primary from the secondary role with the primary target
down. -/
theorem switchDatabase_outcomes_witness :
    (switchDatabase false ⟨some "p", some "s"⟩
      (fun v => if v = "p" then .error (.generic "down") else .ok 8)
      ⟨some 7, some (.ok 7), "secondary", some "true", 1⟩).1 = .ok 8 ∧
    (switchDatabase false ⟨some "p", some "s"⟩
      (fun v => if v = "p" then .error (.generic "down") else .ok 8)
      ⟨some 7, some (.ok 7), "secondary", some "true", 1⟩).2.1.conn = some 8 ∧
    (switchDatabase false ⟨some "p", some "s"⟩
      (fun v => if v = "p" then .error (.generic "down") else .ok 8)
      ⟨some 7, some (.ok 7), "secondary", some "true", 1⟩).2.1.currentDb =
      "secondary" :=
  (switchDatabase_outcomes false ⟨some "p", some "s"⟩
    (fun v => if v = "p" then .error (.generic "down") else .ok 8)
    ⟨some 7, some (.ok 7), "secondary", some "true", 1⟩ 7 "p" "s"
    rfl rfl rfl (by decide) (by decide)).2.2.2
    (.generic "down") 8 rfl (by decide) (by decide)

/-- C7: a switch request naming the role that is already active returns
success with the current status and an Already connected message, leaves
the whole state unchanged (so the live connection is not disconnected) and
performs zero establishment attempts and zero audit writes. -/
theorem postSwitch_noop_same_role
    (who : String) (u : Bool) (cfg : Config) (net : NetEnv) (s : SeqState)
    (hsame : s.currentDb = (if u then "secondary" else "primary")) :
    postSwitch who u cfg net s =
      (.ok ("Already connected to " ++ (if u then "secondary" else "primary") ++
        " database") (getConnectionStatus s), s, [], []) ∧
    containsSub ("Already connected to " ++
      (if u then "secondary" else "primary") ++ " database")
      "Already connected" = true := by
  have hne : s.currentDb ≠ "" := by
    cases u <;> simp_all
  have hcd : (getConnectionStatus s).currentDatabase = s.currentDb := by
    simp [getConnectionStatus, hne]
  constructor
  · simp [postSwitch, hcd, hsame]
  · cases u <;> decide

/-- Witness for C7 at a concrete state already on the secondary role. -/
theorem postSwitch_noop_same_role_witness :
    postSwitch "a" true ⟨some "p", some "s"⟩ (fun _ => .ok 1)
      ⟨some 5, some (.ok 5), "secondary", some "true", 1⟩ =
      (.ok "Already connected to secondary database" ⟨true, "secondary", 1⟩,
        ⟨some 5, some (.ok 5), "secondary", some "true", 1⟩, [], []) ∧
    containsSub "Already connected to secondary database"
      "Already connected" = true :=
  postSwitch_noop_same_role "a" true ⟨some "p", some "s"⟩ (fun _ => .ok 1)
    ⟨some 5, some (.ok 5), "secondary", some "true", 1⟩ rfl

/-- C6 counterexample: a failed switch attempt from the primary role to the
secondary role writes exactly one audit record, and no field of that record
contains the prior role primary, against the claim that every switch audit
record contains the prior role. -/
theorem postSwitch_audit_missing_prior_role_cex :
    (postSwitch "a" true ⟨some "p", some "s"⟩
      (fun _ => .error (.generic "boom"))
      ⟨some 5, some (.ok 5), "primary", some "false", 1⟩).2.2.1 =
      [⟨"a", "view_audit_logs",
        "Failed to switch to secondary database: boom"⟩] ∧
    containsSub "Failed to switch to secondary database: boom" "primary" =
      false ∧
    containsSub "a" "primary" = false ∧
    containsSub "view_audit_logs" "primary" = false := by
  refine ⟨by decide, by decide, by decide, by decide⟩

/-- C6 amended: every real switch attempt (requested role differing from
the reported current role) writes exactly one audit record; a successful
attempt records the prior role and the resulting role in its details, and a
failed attempt records the requested role and the failure message, but not
the prior role. -/
theorem postSwitch_one_audit_record
    (who : String) (u : Bool) (cfg : Config) (net : NetEnv) (s : SeqState)
    (hdiff : (getConnectionStatus s).currentDatabase ≠
      (if u then "secondary" else "primary")) :
    (∃ d : String, (postSwitch who u cfg net s).2.2.1 =
      [⟨who, "view_audit_logs", d⟩]) ∧
    (∀ c : Nat, (switchDatabase u cfg net s).1 = .ok c →
      (postSwitch who u cfg net s).2.2.1 =
        [⟨who, "view_audit_logs",
          "Switched database from " ++
            (getConnectionStatus s).currentDatabase ++ " to " ++
            (getConnectionStatus
              (switchDatabase u cfg net s).2.1).currentDatabase⟩]) ∧
    (∀ e : JsError, (switchDatabase u cfg net s).1 = .error e →
      (postSwitch who u cfg net s).2.2.1 =
        [⟨who, "view_audit_logs",
          "Failed to switch to " ++ (if u then "secondary" else "primary") ++
            " database: " ++ errorMessageOf e⟩]) := by
  rcases hsw : switchDatabase u cfg net s with ⟨r, s', log⟩
  cases r with
  | ok c =>
    have hpost : (postSwitch who u cfg net s).2.2.1 =
        [⟨who, "view_audit_logs",
          "Switched database from " ++
            (getConnectionStatus s).currentDatabase ++ " to " ++
            (getConnectionStatus s').currentDatabase⟩] := by
      simp [postSwitch, hdiff, hsw]
    refine ⟨⟨_, hpost⟩, ?_, ?_⟩
    · intro c' _
      rw [hpost]
    · intro e h
      simp at h
  | error e =>
    have hpost : (postSwitch who u cfg net s).2.2.1 =
        [⟨who, "view_audit_logs",
          "Failed to switch to " ++ (if u then "secondary" else "primary") ++
            " database: " ++ errorMessageOf e⟩] := by
      simp [postSwitch, hdiff, hsw]
    refine ⟨⟨_, hpost⟩, ?_, ?_⟩
    · intro c h
      simp at h
    · intro e' h
      simp at h
      rw [hpost, h]

/-- Witness for C6 amended: the failure conjunct at the concrete failed
switch from primary to secondary. -/
theorem postSwitch_one_audit_record_witness :
    (postSwitch "a" true ⟨some "p", some "s"⟩
      (fun _ => .error (.generic "boom"))
      ⟨some 5, some (.ok 5), "primary", some "false", 1⟩).2.2.1 =
      [⟨"a", "view_audit_logs",
        "Failed to switch to secondary database: boom"⟩] :=
  (postSwitch_one_audit_record "a" true ⟨some "p", some "s"⟩
    (fun _ => .error (.generic "boom"))
    ⟨some 5, some (.ok 5), "primary", some "false", 1⟩ (by decide)).2.2
    (.generic "boom") (by decide)

/-! Event-loop helper lemmas. -/

theorem isRunning_intro (s : Sys) (t : Nat) (task : EstTask)
    (hget : s.tasks[t]? = some task) (hst : task.status = .running) :
    isRunning s t = true := by
  simp [isRunning, hget, hst]

theorem isRunning_elim (s : Sys) (t : Nat) (h : isRunning s t = true) :
    ∃ task : EstTask, s.tasks[t]? = some task ∧
      task.status = TaskStatus.running := by
  unfold isRunning at h
  rcases he : s.tasks[t]? with _ | task
  · rw [he] at h
    cases h
  · rw [he] at h
    exact ⟨task, rfl, by simpa using h⟩

theorem doConnCall_cached (s : Sys) (i : Nat) (c : Nat)
    (h : s.conn = some c) :
    doConnCall i s = setCaller s i (.done (.ok c)) := by
  simp [doConnCall, h]

theorem doConnCall_join (s : Sys) (i t : Nat)
    (h1 : s.conn = none) (h2 : s.promise = some t) :
    doConnCall i s = setCaller s i (.waitingConn t) := by
  simp [doConnCall, h1, h2]

theorem doConnCall_fresh (s : Sys) (i : Nat)
    (h1 : s.conn = none) (h2 : s.promise = none) :
    doConnCall i s =
      { setCaller s i (.waitingConn s.tasks.length) with
        tasks := s.tasks ++ [⟨useSecondaryOf s.USE_SECONDARY_DB, .running⟩]
        promise := some s.tasks.length } := by
  simp [doConnCall, h1, h2]

theorem doResolve_ok (cfg : Config) (net : NetEnv) (s : Sys) (t : Nat)
    (us : Bool) (c : Nat)
    (hget : s.tasks[t]? = some ⟨us, .running⟩)
    (hres : (connectWithFailover us cfg net).result = .ok c)
    (hw : s.callers.any (· == .waitingConn t) = true) :
    doResolve cfg net t s =
      { s with
        tasks := s.tasks.set t ⟨us, .done (.ok c)⟩
        currentDb :=
          (connectWithFailover us cfg net).currentDbUpdate.getD s.currentDb
        callers := s.callers.map
          (fun c' => if c' == .waitingConn t then .done (.ok c) else c')
        conn := some c } := by
  simp [doResolve, hget, hres, hw]

theorem doResolve_err (cfg : Config) (net : NetEnv) (s : Sys) (t : Nat)
    (us : Bool) (e : JsError)
    (hget : s.tasks[t]? = some ⟨us, .running⟩)
    (hres : (connectWithFailover us cfg net).result = .error e)
    (hw : s.callers.any (· == .waitingConn t) = true) :
    doResolve cfg net t s =
      { s with
        tasks := s.tasks.set t ⟨us, .done (.error e)⟩
        currentDb :=
          (connectWithFailover us cfg net).currentDbUpdate.getD s.currentDb
        callers := s.callers.map
          (fun c' => if c' == .waitingConn t then .done (.error e) else c')
        promise := none } := by
  simp [doResolve, hget, hres, hw]

/-! Preservation of the invariant under each event-loop step. -/
theorem inv_init (e0 : Option String) (n : Nat) : Inv (initSys e0 n) := by
  constructor
  · intro t task hget _
    simp [initSys] at hget
  · intro i t h
    simp [initSys, List.getElem?_replicate] at h
  · intro t h
    simp [initSys] at h

theorem inv_setCaller (s : Sys) (i : Nat) (cOld cNew : CallerState)
    (hinv : Inv s) (hold : s.callers[i]? = some cOld)
    (holdw : ∀ t : Nat, cOld ≠ CallerState.waitingConn t)
    (hneww : ∀ t : Nat, cNew ≠ CallerState.waitingConn t) :
    Inv (setCaller s i cNew) := by
  constructor
  · intro t task hget hrun
    obtain ⟨hprom, hconn, j, hj⟩ := hinv.run_promise t task hget hrun
    refine ⟨hprom, hconn, j, ?_⟩
    have hij : i ≠ j := by
      intro h
      rw [h, hj] at hold
      exact holdw t (Option.some.inj hold).symm
    show (s.callers.set i cNew)[j]? = some (CallerState.waitingConn t)
    rw [List.getElem?_set_ne hij]
    exact hj
  · intro j t hj
    simp only [setCaller] at hj
    by_cases hij : i = j
    · rw [List.getElem?_set, if_pos hij] at hj
      split at hj
      · exact absurd (Option.some.inj hj) (hneww t)
      · exact Option.noConfusion hj
    · rw [List.getElem?_set_ne hij] at hj
      exact hinv.wait_run j t hj
  · intro t h
    exact hinv.promise_live t h

theorem inv_doConnCall (s : Sys) (i : Nat) (c₀ : CallerState)
    (hinv : Inv s) (hc₀ : s.callers[i]? = some c₀)
    (hnw : ∀ t : Nat, c₀ ≠ CallerState.waitingConn t) :
    Inv (doConnCall i s) := by
  have hilt : i < s.callers.length := (List.getElem?_eq_some.mp hc₀).1
  rcases hc : s.conn with _ | c
  · rcases hp : s.promise with _ | t₀
    · -- no cached connection and no in-flight promise: a task is created
      rw [doConnCall_fresh s i hc hp]
      have hnorun : ∀ (t : Nat) (task : EstTask), s.tasks[t]? = some task →
          task.status ≠ TaskStatus.running := by
        intro t task hget hrun
        obtain ⟨hprom, _, _⟩ := hinv.run_promise t task hget hrun
        rw [hp] at hprom
        exact Option.noConfusion hprom
      constructor
      · intro t task hget hrun
        rcases Nat.lt_trichotomy t s.tasks.length with hlt | heq | hgt
        · rw [List.getElem?_append_left hlt] at hget
          exact absurd hrun (hnorun t task hget)
        · subst heq
          refine ⟨rfl, hc, i, ?_⟩
          show (s.callers.set i (CallerState.waitingConn s.tasks.length))[i]? =
            some (CallerState.waitingConn s.tasks.length)
          rw [List.getElem?_set_eq_of_lt _ hilt]
        · have hnone : (s.tasks ++ [(⟨useSecondaryOf s.USE_SECONDARY_DB,
              TaskStatus.running⟩ : EstTask)])[t]? = none := by
            apply List.getElem?_eq_none
            simp only [List.length_append, List.length_cons, List.length_nil]
            omega
          rw [hnone] at hget
          exact Option.noConfusion hget
      · intro j t hj
        by_cases hij : i = j
        · subst hij
          rw [show ({ setCaller s i
              (CallerState.waitingConn s.tasks.length) with
              tasks := s.tasks ++ [⟨useSecondaryOf s.USE_SECONDARY_DB,
                TaskStatus.running⟩]
              promise := some s.tasks.length } : Sys).callers =
              s.callers.set i (CallerState.waitingConn s.tasks.length)
              from rfl,
            List.getElem?_set_eq_of_lt _ hilt] at hj
          injection Option.some.inj hj with h2
          rw [← h2]
          exact isRunning_intro _ _
            (⟨useSecondaryOf s.USE_SECONDARY_DB, TaskStatus.running⟩ : EstTask)
            (List.getElem?_concat_length _ _) rfl
        · rw [show ({ setCaller s i
              (CallerState.waitingConn s.tasks.length) with
              tasks := s.tasks ++ [⟨useSecondaryOf s.USE_SECONDARY_DB,
                TaskStatus.running⟩]
              promise := some s.tasks.length } : Sys).callers =
              s.callers.set i (CallerState.waitingConn s.tasks.length)
              from rfl,
            List.getElem?_set_ne hij] at hj
          have hrun := hinv.wait_run j t hj
          obtain ⟨task, hget, hst⟩ := isRunning_elim s t hrun
          exact absurd hst (hnorun t task hget)
      · intro t hpt
        have ht : t = s.tasks.length := (Option.some.inj hpt).symm
        subst ht
        exact ⟨⟨useSecondaryOf s.USE_SECONDARY_DB, TaskStatus.running⟩,
          List.getElem?_concat_length _ _, fun _ => rfl⟩
    · -- an establishment is in flight: the caller joins it
      rw [doConnCall_join s i t₀ hc hp]
      have hrun₀ : isRunning s t₀ = true := by
        obtain ⟨task, hget, himp⟩ := hinv.promise_live t₀ hp
        exact isRunning_intro s t₀ task hget (himp hc)
      constructor
      · intro t task hget hrun
        obtain ⟨hprom, hconn, j, hj⟩ := hinv.run_promise t task hget hrun
        have ht : t = t₀ := by
          rw [hp] at hprom
          exact (Option.some.inj hprom).symm
        subst ht
        refine ⟨hprom, hconn, i, ?_⟩
        show (s.callers.set i (CallerState.waitingConn t))[i]? =
          some (CallerState.waitingConn t)
        rw [List.getElem?_set_eq_of_lt _ hilt]
      · intro j t hj
        simp only [setCaller] at hj
        by_cases hij : i = j
        · rw [List.getElem?_set, if_pos hij, if_pos hilt] at hj
          injection Option.some.inj hj with h2
          rw [← h2]
          exact hrun₀
        · rw [List.getElem?_set_ne hij] at hj
          exact hinv.wait_run j t hj
      · intro t hpt
        exact hinv.promise_live t hpt
  · -- a live connection is cached: the caller completes at once
    rw [doConnCall_cached s i c hc]
    apply inv_setCaller s i c₀ _ hinv hc₀ hnw
    intro t h
    exact CallerState.noConfusion h

theorem inv_doDisconnect (s : Sys) (hinv : Inv s) : Inv (doDisconnect s) := by
  rcases hc : s.conn with _ | c
  · have hid : doDisconnect s = s := by
      simp [doDisconnect, hc]
    rw [hid]
    exact hinv
  · have hd : doDisconnect s =
        { s with conn := none, promise := none, currentDb := "none" } := by
      simp [doDisconnect, hc]
    rw [hd]
    have hnorun : ∀ (t : Nat) (task : EstTask), s.tasks[t]? = some task →
        task.status ≠ TaskStatus.running := by
      intro t task hget hrun
      obtain ⟨_, hconn, _⟩ := hinv.run_promise t task hget hrun
      rw [hc] at hconn
      exact Option.noConfusion hconn
    constructor
    · intro t task hget hrun
      exact absurd hrun (hnorun t task hget)
    · intro j t hj
      have hrun := hinv.wait_run j t hj
      obtain ⟨task, hget, hst⟩ := isRunning_elim s t hrun
      exact absurd hst (hnorun t task hget)
    · intro t h
      exact Option.noConfusion h

theorem inv_doSwitchCall (s : Sys) (i : Nat) (u : Bool)
    (hinv : Inv s) (hc₀ : s.callers[i]? = some CallerState.idle) :
    Inv (doSwitchCall i u s) := by
  unfold doSwitchCall
  have hcal : (doDisconnect s).callers = s.callers := by
    unfold doDisconnect
    split <;> rfl
  apply inv_setCaller (doDisconnect s) i CallerState.idle _
    (inv_doDisconnect s hinv) (by rw [hcal]; exact hc₀)
  · intro t h
    exact CallerState.noConfusion h
  · intro t h
    exact CallerState.noConfusion h

theorem inv_env_update (s : Sys) (v : Option String) (hinv : Inv s) :
    Inv { s with USE_SECONDARY_DB := v } :=
  ⟨hinv.run_promise, hinv.wait_run, hinv.promise_live⟩

theorem inv_doSwitchResume (s : Sys) (i : Nat) (u : Bool)
    (hinv : Inv s) (hc₀ : s.callers[i]? = some (CallerState.switchMid u)) :
    Inv (doSwitchResume i u s) := by
  unfold doSwitchResume
  exact inv_doConnCall
    { s with USE_SECONDARY_DB := some (if u then "true" else "false") }
    i (CallerState.switchMid u)
    (inv_env_update s (some (if u then "true" else "false")) hinv) hc₀
    (fun t h => CallerState.noConfusion h)

theorem inv_doResolve (cfg : Config) (net : NetEnv) (s : Sys) (t : Nat)
    (hinv : Inv s) (hrun : isRunning s t = true) :
    Inv (doResolve cfg net t s) := by
  obtain ⟨task, hget, hst⟩ := isRunning_elim s t hrun
  obtain ⟨hprom, hconn, j, hj⟩ := hinv.run_promise t task hget hst
  have htlt : t < s.tasks.length := (List.getElem?_eq_some.mp hget).1
  have hanyw : s.callers.any (· == .waitingConn t) = true := by
    refine List.any_eq_true.mpr ⟨.waitingConn t, List.getElem?_mem hj, ?_⟩
    simp
  rcases task with ⟨us, st⟩
  have hst' : st = TaskStatus.running := hst
  subst hst'
  have huniq : ∀ (t' : Nat) (task' : EstTask), s.tasks[t']? = some task' →
      task'.status = TaskStatus.running → t' = t := by
    intro t' task' hget' hrun'
    obtain ⟨hprom', _, _⟩ := hinv.run_promise t' task' hget' hrun'
    rw [hprom] at hprom'
    exact (Option.some.inj hprom').symm
  rcases hres : (connectWithFailover us cfg net).result with e | c
  · rw [doResolve_err cfg net s t us e hget hres hanyw]
    constructor
    · intro t' task' hget' hrun'
      rcases eq_or_ne t' t with heq | hne
      · subst heq
        rw [List.getElem?_set_eq_of_lt _ htlt] at hget'
        have h2 := Option.some.inj hget'
        rw [← h2] at hrun'
        exact absurd hrun' (by simp)
      · rw [List.getElem?_set_ne (Ne.symm hne)] at hget'
        exact absurd (huniq t' task' hget' hrun') hne
    · intro j' t' hj'
      simp only [List.getElem?_map] at hj'
      rcases hcj : s.callers[j']? with _ | cj
      · rw [hcj] at hj'
        exact Option.noConfusion hj'
      · rw [hcj] at hj'
        simp only [Option.map_some'] at hj'
        have hfcj := Option.some.inj hj'
        by_cases hcw : cj = CallerState.waitingConn t
        · rw [if_pos (by simp [hcw])] at hfcj
          exact CallerState.noConfusion hfcj
        · rw [if_neg (by simp [hcw])] at hfcj
          subst hfcj
          have hr' := hinv.wait_run j' t' hcj
          obtain ⟨task', hget', hst'⟩ := isRunning_elim s t' hr'
          have ht' : t' = t := huniq t' task' hget' hst'
          exact absurd (by rw [ht']) hcw
    · intro t' h
      exact Option.noConfusion h
  · rw [doResolve_ok cfg net s t us c hget hres hanyw]
    constructor
    · intro t' task' hget' hrun'
      rcases eq_or_ne t' t with heq | hne
      · subst heq
        rw [List.getElem?_set_eq_of_lt _ htlt] at hget'
        have h2 := Option.some.inj hget'
        rw [← h2] at hrun'
        exact absurd hrun' (by simp)
      · rw [List.getElem?_set_ne (Ne.symm hne)] at hget'
        exact absurd (huniq t' task' hget' hrun') hne
    · intro j' t' hj'
      simp only [List.getElem?_map] at hj'
      rcases hcj : s.callers[j']? with _ | cj
      · rw [hcj] at hj'
        exact Option.noConfusion hj'
      · rw [hcj] at hj'
        simp only [Option.map_some'] at hj'
        have hfcj := Option.some.inj hj'
        by_cases hcw : cj = CallerState.waitingConn t
        · rw [if_pos (by simp [hcw])] at hfcj
          exact CallerState.noConfusion hfcj
        · rw [if_neg (by simp [hcw])] at hfcj
          subst hfcj
          have hr' := hinv.wait_run j' t' hcj
          obtain ⟨task', hget', hst'⟩ := isRunning_elim s t' hr'
          have ht' : t' = t := huniq t' task' hget' hst'
          exact absurd (by rw [ht']) hcw
    · intro t' hpt
      have ht' : t' = t := by
        rw [hprom] at hpt
        exact (Option.some.inj hpt).symm
      subst ht'
      refine ⟨⟨us, .done (.ok c)⟩, ?_, ?_⟩
      · exact List.getElem?_set_eq_of_lt _ htlt
      · intro hcc
        exact Option.noConfusion hcc

/-- Every reachable state of the event-loop model satisfies the cache
invariant. -/
theorem reachable_inv (cfg : Config) (net : NetEnv) (e0 : Option String)
    (n : Nat) (s : Sys) (hr : Reachable cfg net e0 n s) : Inv s := by
  induction hr with
  | init => exact inv_init e0 n
  | step hr hs ih =>
    cases hs with
    | connCall i h =>
      exact inv_doConnCall _ i CallerState.idle ih h
        (fun t h' => CallerState.noConfusion h')
    | resolve t h => exact inv_doResolve _ _ _ t ih h
    | disc => exact inv_doDisconnect _ ih
    | switchCall i u h => exact inv_doSwitchCall _ i u ih h
    | switchResume i u h => exact inv_doSwitchResume _ i u ih h

/-! Claims about the event-loop behaviour. -/

/-- C1: in every reachable state of the connection cache at most one
establishment task is unresolved; a getConnection call that finds a
pending in-flight task awaits that same task and creates no new task; and
when the awaited task resolves, the awaiting caller receives exactly that
task outcome. -/
theorem single_inflight_establishment
    (cfg : Config) (net : NetEnv) (e0 : Option String) (n : Nat) (s : Sys)
    (hr : Reachable cfg net e0 n s) :
    (∀ t₁ t₂ : Nat, isRunning s t₁ = true → isRunning s t₂ = true →
      t₁ = t₂) ∧
    (∀ i t : Nat, s.conn = none → s.promise = some t →
      s.callers[i]? = some CallerState.idle →
      (doConnCall i s).callers[i]? = some (CallerState.waitingConn t) ∧
      (doConnCall i s).tasks = s.tasks) ∧
    (∀ (i t : Nat) (task : EstTask),
      s.callers[i]? = some (CallerState.waitingConn t) →
      s.tasks[t]? = some task →
      (doResolve cfg net t s).callers[i]? =
        some (CallerState.done
          (connectWithFailover task.useSec cfg net).result)) := by
  have hinv := reachable_inv cfg net e0 n s hr
  refine ⟨?_, ?_, ?_⟩
  · intro t₁ t₂ h₁ h₂
    obtain ⟨task₁, hg₁, hs₁⟩ := isRunning_elim s t₁ h₁
    obtain ⟨task₂, hg₂, hs₂⟩ := isRunning_elim s t₂ h₂
    obtain ⟨hp₁, _, _⟩ := hinv.run_promise t₁ task₁ hg₁ hs₁
    obtain ⟨hp₂, _, _⟩ := hinv.run_promise t₂ task₂ hg₂ hs₂
    rw [hp₁] at hp₂
    exact Option.some.inj hp₂
  · intro i t hconn hprom hidle
    have hilt : i < s.callers.length := (List.getElem?_eq_some.mp hidle).1
    rw [doConnCall_join s i t hconn hprom]
    constructor
    · show (s.callers.set i (CallerState.waitingConn t))[i]? =
        some (CallerState.waitingConn t)
      rw [List.getElem?_set_eq_of_lt _ hilt]
    · rfl
  · intro i t task hw hget
    have hrun := hinv.wait_run i t hw
    obtain ⟨task', hget', hst'⟩ := isRunning_elim s t hrun
    rw [hget] at hget'
    have htask := Option.some.inj hget'
    rw [← htask] at hst'
    rcases task with ⟨us, st⟩
    have hstr : st = TaskStatus.running := hst'
    subst hstr
    have hanyw : s.callers.any (· == .waitingConn t) = true := by
      refine List.any_eq_true.mpr ⟨.waitingConn t, List.getElem?_mem hw, ?_⟩
      simp
    rcases hres : (connectWithFailover us cfg net).result with e | c
    · rw [doResolve_err cfg net s t us e hget hres hanyw,
        List.getElem?_map, hw]
      simp [hres]
    · rw [doResolve_ok cfg net s t us c hget hres hanyw,
        List.getElem?_map, hw]
      simp [hres]

/-- Witness for C1 at a concrete two-caller run: caller 0 creates task 0,
a second getConnection call joins that same task and creates none. -/
theorem single_inflight_establishment_witness :
    (doConnCall 1 (doConnCall 0 (initSys none 2))).callers[1]? =
      some (CallerState.waitingConn 0) ∧
    (doConnCall 1 (doConnCall 0 (initSys none 2))).tasks =
      (doConnCall 0 (initSys none 2)).tasks :=
  (single_inflight_establishment ⟨some "p", some "s"⟩ (fun _ => .ok 1) none 2
    (doConnCall 0 (initSys none 2))
    (Reachable.step Reachable.init (Step.connCall (initSys none 2) 0 rfl))).2.1
    1 0 rfl rfl rfl

/-- C4: when the establishment attempt behind the in-flight promise fails,
every caller awaiting that attempt receives the failure; afterwards no
connection is cached and the in-flight marker is cleared; and the next
getConnection call creates a fresh establishment task from the
disconnected state. -/
theorem failed_establishment_resets_cache
    (cfg : Config) (net : NetEnv) (e0 : Option String) (n : Nat) (s : Sys)
    (i t : Nat) (task : EstTask) (e : JsError)
    (hr : Reachable cfg net e0 n s)
    (hw : s.callers[i]? = some (CallerState.waitingConn t))
    (hget : s.tasks[t]? = some task)
    (hfail : (connectWithFailover task.useSec cfg net).result = .error e) :
    (∀ j : Nat, s.callers[j]? = some (CallerState.waitingConn t) →
      (doResolve cfg net t s).callers[j]? =
        some (CallerState.done (.error e))) ∧
    (doResolve cfg net t s).conn = none ∧
    (doResolve cfg net t s).promise = none ∧
    (∀ j : Nat, (doResolve cfg net t s).callers[j]? =
        some CallerState.idle →
      (doConnCall j (doResolve cfg net t s)).promise =
        some (doResolve cfg net t s).tasks.length ∧
      (doConnCall j (doResolve cfg net t s)).tasks.length =
        (doResolve cfg net t s).tasks.length + 1) := by
  have hinv := reachable_inv cfg net e0 n s hr
  have hrun := hinv.wait_run i t hw
  obtain ⟨task', hget', hst'⟩ := isRunning_elim s t hrun
  rw [hget] at hget'
  have htask := Option.some.inj hget'
  rw [← htask] at hst'
  obtain ⟨hprom, hconn, _⟩ := hinv.run_promise t task hget hst'
  rcases task with ⟨us, st⟩
  have hstr : st = TaskStatus.running := hst'
  subst hstr
  have hanyw : s.callers.any (· == .waitingConn t) = true := by
    refine List.any_eq_true.mpr ⟨.waitingConn t, List.getElem?_mem hw, ?_⟩
    simp
  have hfail' : (connectWithFailover us cfg net).result = .error e := hfail
  have hS' := doResolve_err cfg net s t us e hget hfail' hanyw
  refine ⟨?_, ?_, ?_, ?_⟩
  · intro j hj
    rw [hS', List.getElem?_map, hj]
    simp
  · rw [hS']
    exact hconn
  · rw [hS']
  · intro j hj'
    have hc4 : (doResolve cfg net t s).conn = none := by
      rw [hS']
      exact hconn
    have hp4 : (doResolve cfg net t s).promise = none := by
      rw [hS']
    rw [doConnCall_fresh _ j hc4 hp4]
    refine ⟨rfl, ?_⟩
    simp

/-- Witness for C4 at a concrete one-caller run whose establishment
attempt fails on both targets. -/
theorem failed_establishment_resets_cache_witness :
    (doResolve ⟨some "p", some "s"⟩ (fun _ => .error (.generic "down")) 0
      (doConnCall 0 (initSys none 1))).callers[0]? =
      some (CallerState.done (.error
        (.generic "Both primary and secondary database connections failed"))) ∧
    (doResolve ⟨some "p", some "s"⟩ (fun _ => .error (.generic "down")) 0
      (doConnCall 0 (initSys none 1))).conn = none ∧
    (doResolve ⟨some "p", some "s"⟩ (fun _ => .error (.generic "down")) 0
      (doConnCall 0 (initSys none 1))).promise = none :=
  ⟨(failed_establishment_resets_cache ⟨some "p", some "s"⟩
      (fun _ => .error (.generic "down")) none 1
      (doConnCall 0 (initSys none 1)) 0 0 ⟨false, .running⟩
      (.generic "Both primary and secondary database connections failed")
      (Reachable.step Reachable.init (Step.connCall (initSys none 1) 0 rfl))
      rfl rfl (by decide)).1 0 rfl,
    (failed_establishment_resets_cache ⟨some "p", some "s"⟩
      (fun _ => .error (.generic "down")) none 1
      (doConnCall 0 (initSys none 1)) 0 0 ⟨false, .running⟩
      (.generic "Both primary and secondary database connections failed")
      (Reachable.step Reachable.init (Step.connCall (initSys none 1) 0 rfl))
      rfl rfl (by decide)).2.1,
    (failed_establishment_resets_cache ⟨some "p", some "s"⟩
      (fun _ => .error (.generic "down")) none 1
      (doConnCall 0 (initSys none 1)) 0 0 ⟨false, .running⟩
      (.generic "Both primary and secondary database connections failed")
      (Reachable.step Reachable.init (Step.connCall (initSys none 1) 0 rfl))
      rfl rfl (by decide)).2.2.1⟩

/-- C10: with no cached connection dbDisconnect changes nothing, neither
the pending task nor the recorded role; consequently a switchDatabase call
resuming while an establishment is still in flight writes the new
preferred role but its inner getConnection joins the pre-existing task,
whose creation-time target snapshot is unchanged, and creates no new
establishment attempt for the requested target. -/
theorem disconnect_noop_switch_joins_inflight
    (s : Sys) (i t : Nat) (u : Bool)
    (hconn : s.conn = none)
    (hmid : s.callers[i]? = some (CallerState.switchMid u))
    (hprom : s.promise = some t) :
    doDisconnect s = s ∧
    (doSwitchResume i u s).callers[i]? = some (CallerState.waitingConn t) ∧
    (doSwitchResume i u s).tasks = s.tasks ∧
    (doSwitchResume i u s).USE_SECONDARY_DB =
      some (if u then "true" else "false") := by
  have hilt : i < s.callers.length := (List.getElem?_eq_some.mp hmid).1
  have hjoin : doSwitchResume i u s =
      setCaller
        { s with USE_SECONDARY_DB := some (if u then "true" else "false") }
        i (CallerState.waitingConn t) := by
    unfold doSwitchResume
    exact doConnCall_join
      { s with USE_SECONDARY_DB := some (if u then "true" else "false") }
      i t hconn hprom
  refine ⟨by simp [doDisconnect, hconn], ?_, ?_, ?_⟩
  · rw [hjoin]
    show (s.callers.set i (CallerState.waitingConn t))[i]? =
      some (CallerState.waitingConn t)
    rw [List.getElem?_set_eq_of_lt _ hilt]
  · rw [hjoin]
    rfl
  · rw [hjoin]
    rfl

/-- Witness for C10 at a concrete reachable two-caller run: caller 0
started an establishment under the primary preference, caller 1 began a
switch to secondary while it is in flight and, on resume, joins task 0. -/
theorem disconnect_noop_switch_joins_inflight_witness :
    doDisconnect
      (doSwitchCall 1 true (doConnCall 0 (initSys (some "false") 2))) =
      doSwitchCall 1 true (doConnCall 0 (initSys (some "false") 2)) ∧
    (doSwitchResume 1 true
      (doSwitchCall 1 true (doConnCall 0 (initSys (some "false") 2)))).callers[1]? =
      some (CallerState.waitingConn 0) ∧
    (doSwitchResume 1 true
      (doSwitchCall 1 true (doConnCall 0 (initSys (some "false") 2)))).tasks =
      (doSwitchCall 1 true (doConnCall 0 (initSys (some "false") 2))).tasks ∧
    (doSwitchResume 1 true
      (doSwitchCall 1 true
        (doConnCall 0 (initSys (some "false") 2)))).USE_SECONDARY_DB =
      some "true" :=
  disconnect_noop_switch_joins_inflight
    (doSwitchCall 1 true (doConnCall 0 (initSys (some "false") 2)))
    1 0 true rfl rfl rfl

end TicketDb
